import Mathlib

/-!
Verification of the feedback-submission pipeline of FINANCIALNEWSANALYZER.

The development shallowly embeds the two services that implement the
pipeline:

* `FeedbackService` (src/infrastructure/services/feedback_service.py):
  `save` validates the three input fields, builds one record with the
  submission timestamp, tries Google Sheets (`_save_to_google_sheets`)
  and falls back to the local CSV file (`_save_to_csv`).
* `GitHubFeedbackService` (src/infrastructure/services/github_feedback_service.py):
  `is_configured` and `save_feedback` (GitHub Issues POST).

External effects (the gspread client, HTTP, the filesystem) are modelled
by explicit oracle values describing the outcome of each call the code
makes; every function below mirrors the control flow of its Python
source line by line.  Streamlit UI calls (st.info / st.success /
st.error / the debug expander of `save`, lines 210-304) only render
text and perform read-only diagnostics; they are not modelled.
-/

namespace FNA

/-- The feedback record built by `FeedbackService.save` (lines 202-208):
a dict with the UTC ISO-8601 timestamp taken at submission time and the
three fields exactly as submitted. -/
structure FeedbackRecord where
  timestamp : String
  name : String
  email : String
  message : String
deriving DecidableEq, Repr

/-- The four-column row `_save_to_csv` appends (lines 394-399). -/
def record_row (d : FeedbackRecord) : List String :=
  [d.timestamp, d.name, d.email, d.message]

/-- The CSV header row written on file creation (line 393). -/
def csv_header : List String := ["Timestamp", "Name", "Email", "Message"]

/-- The five-column row `_save_to_google_sheets` appends (lines 369-375). -/
def sheet_row (d : FeedbackRecord) : List String :=
  [d.timestamp, d.name, d.email, d.message, "Yeni"]

/-- The header row written when the "Feedback" worksheet is created
(lines 357-359). -/
def sheets_header : List String := ["Timestamp", "Name", "Email", "Message", "Status"]

/-- The state of the local filesystem seen by the service: whether the
`data` directory exists, and the CSV file's rows (`none` = the file does
not exist). -/
structure Fs where
  dir_exists : Bool
  file : Option (List (List String))
deriving DecidableEq, Repr

/-- `st.secrets` entries read by `_save_to_google_sheets`:
`GOOGLE_SHEET_ID` (`none` = missing) and the `gcp_service_account`
dict (`none` = missing or empty). -/
structure GcpAccount where
  project_id : Option String
deriving DecidableEq, Repr

structure Secrets where
  google_sheet_id : Option String
  gcp_service_account : Option GcpAccount
deriving DecidableEq, Repr

/-- Outcomes of the remote Google Sheets calls made inside the try
block of `_save_to_google_sheets` (lines 326-384): whether
`open_by_key`, `worksheets()`, the `worksheet("Feedback")` lookup,
`add_worksheet`, the header `append_row`, and the data `append_row`
succeed (a `false` means the call raised). -/
structure SheetsOps where
  open_ok : Bool
  list_ok : Bool
  feedback_ws_found : Bool
  add_ws_ok : Bool
  header_append_ok : Bool
  append_ok : Bool
deriving DecidableEq, Repr

/-- The `FeedbackService` object: `self.gsheet_client` (`true` iff the
client was initialised, i.e. is not `None`) and the secrets source. -/
structure FeedbackService where
  gsheet_client : Bool
  secrets : Secrets
deriving DecidableEq, Repr

/-- `FeedbackService.__init__` lines 36-38: `os.makedirs(self.csv_dir,
exist_ok=True)` — creates the data directory, tolerating its prior
existence, and touches nothing else. -/
def service_init (fs : Fs) : Fs := ⟨true, fs.file⟩

/-- `FeedbackService._save_to_csv` (lines 386-402).  The whole body is
a try/except returning `False` on any exception.  `io_ok = false`
models an I/O error raised by `open`/`write` (disk full, permissions);
a missing parent directory also makes `open(..., 'a')` raise.  On
success: the file is created if absent, the header row is written
exactly when the file did not exist, then the record row is appended. -/
def save_to_csv (io_ok : Bool) (fs : Fs) (data : FeedbackRecord) : Bool × Fs :=
  if fs.dir_exists && io_ok then
    match fs.file with
    | none => (true, ⟨fs.dir_exists, some [csv_header, record_row data]⟩)
    | some rows => (true, ⟨fs.dir_exists, some (rows ++ [record_row data])⟩)
  else (false, fs)

/-- `FeedbackService._save_to_google_sheets` (lines 320-384).  Returns
whether the backend reported success together with the rows appended to
the remote worksheet.  Mirrors, in order: the `gsheet_client` check
(line 322), the `GOOGLE_SHEET_ID` check (327-330, `None` or empty is
falsy), the placeholder check on the service-account dict (333-336),
then the try block: `open_by_key` (339), `worksheets()` (343), the
`worksheet("Feedback")` lookup (348) with creation of the worksheet and
its header on failure (352-359), and the final `append_row` (369-375).
Any raised call lands in the except at line 380 and yields `False`.
(The `if not worksheet` fallback at line 363 is dead code: gspread
worksheet objects are always truthy.) -/
def FeedbackService.save_to_google_sheets (svc : FeedbackService) (ops : SheetsOps)
    (data : FeedbackRecord) : Bool × List (List String) :=
  if svc.gsheet_client = false then (false, [])
  else
    match svc.secrets.google_sheet_id with
    | none => (false, [])
    | some sid =>
      if sid = "" then (false, [])
      else
        match svc.secrets.gcp_service_account with
        | none => (false, [])
        | some acct =>
          if acct.project_id = some "your-actual-project-id" then (false, [])
          else if ops.open_ok = false then (false, [])
          else if ops.list_ok = false then (false, [])
          else if ops.feedback_ws_found then
            if ops.append_ok then (true, [sheet_row data]) else (false, [])
          else if ops.add_ws_ok = false then (false, [])
          else if ops.header_append_ok = false then (false, [])
          else if ops.append_ok then (true, [sheets_header, sheet_row data])
          else (false, [sheets_header])

/-- The observable result of one `FeedbackService.save` call:
the returned bool, which success message was shown (`"google_sheets"`
for line 308, `"csv"` for line 313), the resulting filesystem, and the
records passed to each backend (each helper is called at most once per
submission in the source). -/
structure SaveResult where
  ok : Bool
  persisted : Option String
  fs : Fs
  sheets_calls : List FeedbackRecord
  remote_rows : List (List String)
  csv_calls : List FeedbackRecord
deriving DecidableEq, Repr

/-- `FeedbackService.save` (lines 190-318).  Validation (198-200)
rejects a submission iff one of the fields is the empty string (Python
`not s` on a `str`); the record is built once (202-208) with the
submission-time timestamp `now` (`datetime.utcnow().isoformat()`,
line 202); then Google Sheets is tried first (307) and the CSV fallback
second (312).  The debug expander (lines 214-304) only renders
diagnostics and performs a read-only `open_by_key` test; it writes
nothing and does not touch the record. -/
def FeedbackService.save (svc : FeedbackService) (ops : SheetsOps) (io_ok : Bool)
    (fs : Fs) (now name email message : String) : SaveResult :=
  if name = "" ∨ email = "" ∨ message = "" then
    { ok := false, persisted := none, fs := fs,
      sheets_calls := [], remote_rows := [], csv_calls := [] }
  else
    let data : FeedbackRecord := ⟨now, name, email, message⟩
    let s := svc.save_to_google_sheets ops data
    if s.1 then
      { ok := true, persisted := some "google_sheets", fs := fs,
        sheets_calls := [data], remote_rows := s.2, csv_calls := [] }
    else
      let c := save_to_csv io_ok fs data
      { ok := c.1, persisted := if c.1 then some "csv" else none, fs := c.2,
        sheets_calls := [data], remote_rows := s.2, csv_calls := [data] }

/-- Iterated successful CSV writes (used to state the header-once
property: `_save_to_csv` applied to each record in order with the
I/O succeeding). -/
def write_records (records : List FeedbackRecord) (fs : Fs) : Fs :=
  records.foldl (fun f d => (save_to_csv true f d).2) fs

/-- The CSV file contents after a successful `_save_to_csv` on `fs`. -/
def csv_after (fs : Fs) (d : FeedbackRecord) : Option (List (List String)) :=
  match fs.file with
  | none => some [csv_header, record_row d]
  | some rows => some (rows ++ [record_row d])

/-! ### The CSV row encoding written by `csv.writer`

`_save_to_csv` writes rows via Python's `csv.writer` with the default
dialect: fields are separated by commas and a field is quoted iff it
contains a comma, a double quote, or a CR/LF character; inside a quoted
field each double quote is doubled (QUOTE_MINIMAL).  The functions work
on `List Char` so that facts about them are provable by induction. -/

/-- Whether `csv.writer` must quote the field (QUOTE_MINIMAL). -/
def needs_quote (cs : List Char) : Bool :=
  cs.any fun c => c == ',' || c == '\"' || c == '\r' || c == '\n'

/-- Double each double-quote character of a quoted field's content. -/
def escape : List Char → List Char
  | [] => []
  | c :: cs => if c = '\"' then '\"' :: '\"' :: escape cs else c :: escape cs

/-- One encoded CSV field. -/
def encode_field (cs : List Char) : List Char :=
  if needs_quote cs then '\"' :: (escape cs ++ ['\"']) else cs

/-- One encoded CSV row (fields joined by commas, no terminator). -/
def encode_row : List (List Char) → List Char
  | [] => []
  | [f] => encode_field f
  | f :: fs => encode_field f ++ ',' :: encode_row fs

/-- One encoded CSV row, as a `String` (for a row of `String` fields). -/
def encode_row_string (r : List String) : String :=
  String.mk (encode_row (r.map String.data))

/-! ### A CSV row reader

A standard single-row CSV reader, written as a character-by-character
state machine so it is both executable and provable: `start` is at the
beginning of a field, `unq` inside an unquoted field, `quo` inside a
quoted field, and `quoq` inside a quoted field having just read a
double quote (which either escapes a second quote or closes the
field). -/

inductive PState where
  | start (acc : List (List Char))
  | unq (cur : List Char) (acc : List (List Char))
  | quo (cur : List Char) (acc : List (List Char))
  | quoq (cur : List Char) (acc : List (List Char))
deriving DecidableEq, Repr

def parse_step : PState → Char → Option PState
  | .start acc, c =>
    if c = ',' then some (.start (acc ++ [[]]))
    else if c = '\"' then some (.quo [] acc)
    else some (.unq [c] acc)
  | .unq cur acc, c =>
    if c = ',' then some (.start (acc ++ [cur]))
    else some (.unq (cur ++ [c]) acc)
  | .quo cur acc, c =>
    if c = '\"' then some (.quoq cur acc)
    else some (.quo (cur ++ [c]) acc)
  | .quoq cur acc, c =>
    if c = '\"' then some (.quo (cur ++ ['\"']) acc)
    else if c = ',' then some (.start (acc ++ [cur]))
    else none

def parse_finish : PState → Option (List (List Char))
  | .start acc => some (acc ++ [[]])
  | .unq cur acc => some (acc ++ [cur])
  | .quo _ _ => none
  | .quoq cur acc => some (acc ++ [cur])

def parse_run : PState → List Char → Option (List (List Char))
  | s, [] => parse_finish s
  | s, c :: cs =>
    match parse_step s c with
    | none => none
    | some s2 => parse_run s2 cs

/-- Parse one CSV row back into its list of fields. -/
def parse_fields (cs : List Char) : Option (List (List Char)) :=
  parse_run (.start []) cs

/-- Python's `str.strip()` on its default whitespace set (the spec's
"trimming"): drop whitespace from both ends. -/
def is_space (c : Char) : Bool :=
  c = ' ' || c = '\t' || c = '\n' || c = '\r' || c = '\x0b' || c = '\x0c'

def py_strip (cs : List Char) : List Char :=
  ((cs.dropWhile is_space).reverse.dropWhile is_space).reverse

/-! ### `GitHubFeedbackService` (github_feedback_service.py) -/

/-- The service object as built by `__init__` (lines 13-17) from
`st.secrets` with the defaults `""`, `"enecpp"`,
`"FINANCIALNEWSANALYZER"`. -/
structure GitHubFeedbackService where
  github_token : String
  repo_owner : String
  repo_name : String
deriving DecidableEq, Repr

def GitHubFeedbackService.of_secrets (token owner name : Option String) :
    GitHubFeedbackService :=
  ⟨token.getD "", owner.getD "enecpp", name.getD "FINANCIALNEWSANALYZER"⟩

/-- `GitHubFeedbackService.is_configured` (lines 19-21):
`bool(self.github_token and self.repo_owner and self.repo_name)` —
true iff all three strings are non-empty. -/
def GitHubFeedbackService.is_configured (g : GitHubFeedbackService) : Bool :=
  g.github_token != "" && g.repo_owner != "" && g.repo_name != ""

/-- The outcome of the `requests.post` call and of reading its
response, as seen by `save_feedback`: the POST raised a
`RequestException` (line 86), some other exception was raised
(line 89), or a response arrived with the given status code;
`json_ok = false` means `response.json()` (line 78) raised on the
response body. -/
structure HttpResponse where
  status_code : Nat
  json_ok : Bool
deriving DecidableEq, Repr

inductive PostOutcome where
  | network_error
  | raises
  | response (r : HttpResponse)
deriving DecidableEq, Repr

/-- `GitHubFeedbackService.save_feedback` (lines 23-91).  Returns
(result, posted): the returned bool and whether the POST was attempted.
If unconfigured it returns `False` before any request (35-36); the
issue title/body construction (40-58) is pure string formatting and
cannot raise; then `requests.post` (75) is attempted once, status 201
leads to `response.json()` and success (77-81), any other status to
`False` (82-84), and both exception handlers return `False` (86-91). -/
def GitHubFeedbackService.save_feedback (g : GitHubFeedbackService)
    (name email message : String) (outcome : PostOutcome) : Bool × Bool :=
  if g.is_configured then
    match outcome with
    | .network_error => (false, true)
    | .raises => (false, true)
    | .response r =>
      if r.status_code = 201 then
        if r.json_ok then (true, true) else (false, true)
      else (false, true)
  else (false, false)

/-- The placeholder credential values recognised by this repository
(feedback_service.py lines 76-78); the spec's "non-placeholder"
requirement on backend configuration refers to values like these. -/
def placeholder_value (s : String) : Bool :=
  s == "your-actual-project-id" || s == "your-project" ||
    s == "YOUR_ACTUAL_PRIVATE_KEY"

/-! ### Concrete instances used by witnesses and counterexamples -/

def sec_none : Secrets := ⟨none, none⟩

def svc_unconf : FeedbackService := ⟨false, sec_none⟩

def svc_conf : FeedbackService :=
  ⟨true, ⟨some "sheet-id-1234", some ⟨some "real-project-42"⟩⟩⟩

def ops_none : SheetsOps := ⟨false, false, false, false, false, false⟩

def ops_all : SheetsOps := ⟨true, true, true, true, true, true⟩

def fs_fresh : Fs := ⟨true, none⟩

def rec_ex : FeedbackRecord :=
  ⟨"2024-01-01T00:00:00", "Alice", "alice@example.com", "Great tool!"⟩

def rec_untrimmed : FeedbackRecord :=
  ⟨"2024-01-01T00:00:00", " Alice ", "alice@example.com", "Great tool!"⟩

def gh_ex : GitHubFeedbackService :=
  ⟨"token-123", "enecpp", "FINANCIALNEWSANALYZER"⟩

def gh_placeholder : GitHubFeedbackService :=
  ⟨"your-actual-project-id", "enecpp", "FINANCIALNEWSANALYZER"⟩

def gh_unconf : GitHubFeedbackService :=
  ⟨"", "enecpp", "FINANCIALNEWSANALYZER"⟩

/-! ## Helper lemmas -/

theorem sheets_rows_mem (svc : FeedbackService) (ops : SheetsOps) (d : FeedbackRecord) :
    ∀ row ∈ (svc.save_to_google_sheets ops d).2,
      row = sheets_header ∨ row = sheet_row d := by
  unfold FeedbackService.save_to_google_sheets
  repeat' split
  all_goals simp_all

theorem sheets_success_row (svc : FeedbackService) (ops : SheetsOps) (d : FeedbackRecord)
    (h : (svc.save_to_google_sheets ops d).1 = true) :
    sheet_row d ∈ (svc.save_to_google_sheets ops d).2 := by
  unfold FeedbackService.save_to_google_sheets at *
  repeat' split at h
  all_goals simp_all

theorem save_to_csv_file_of_ok (io_ok : Bool) (fs : Fs) (d : FeedbackRecord)
    (h : (save_to_csv io_ok fs d).1 = true) :
    ((save_to_csv io_ok fs d).2).file = csv_after fs d := by
  rcases fs with ⟨de, file⟩
  cases de <;> cases io_ok <;> cases file <;> simp_all [save_to_csv, csv_after]

theorem save_to_csv_fail_iff (io_ok : Bool) (fs : Fs) (d : FeedbackRecord) :
    (save_to_csv io_ok fs d).1 = false ↔ (fs.dir_exists && io_ok) = false := by
  unfold save_to_csv
  split
  · split <;> simp_all
  · simp_all

theorem write_records_some (records : List FeedbackRecord) :
    ∀ rs : List (List String),
      write_records records ⟨true, some rs⟩ = ⟨true, some (rs ++ records.map record_row)⟩ := by
  induction records with
  | nil => intro rs; simp [write_records]
  | cons d ds ih =>
    intro rs
    have hstep : (save_to_csv true ⟨true, some rs⟩ d).2 =
        (⟨true, some (rs ++ [record_row d])⟩ : Fs) := by
      simp [save_to_csv]
    calc write_records (d :: ds) ⟨true, some rs⟩
        = write_records ds (save_to_csv true ⟨true, some rs⟩ d).2 := by
          simp [write_records, List.foldl_cons]
      _ = write_records ds ⟨true, some (rs ++ [record_row d])⟩ := by rw [hstep]
      _ = ⟨true, some (rs ++ (d :: ds).map record_row)⟩ := by
          rw [ih (rs ++ [record_row d])]
          simp

/-! ## Claims about `FeedbackService.save` -/

/-- C1: for every valid submission (all three fields non-empty) in which
the remote backend (Google Sheets, the only remote backend wired into
`FeedbackService.save`) is unconfigured or its write fails
(`_save_to_google_sheets` returns `False` in all those cases), `save`
falls through to the CSV backend: `_save_to_csv` receives exactly one
append call with the record, and if that append succeeds `save` shows
the CSV success message and returns `True`, the file having gained
exactly the record's row. -/
theorem save_falls_back_to_csv (svc : FeedbackService) (ops : SheetsOps) (io_ok : Bool)
    (fs : Fs) (now n e m : String) (hn : n ≠ "") (he : e ≠ "") (hm : m ≠ "")
    (hs : (svc.save_to_google_sheets ops ⟨now, n, e, m⟩).1 = false) :
    (svc.save ops io_ok fs now n e m).csv_calls = [⟨now, n, e, m⟩] ∧
    ((save_to_csv io_ok fs ⟨now, n, e, m⟩).1 = true →
      (svc.save ops io_ok fs now n e m).ok = true ∧
      (svc.save ops io_ok fs now n e m).persisted = some "csv" ∧
      (svc.save ops io_ok fs now n e m).fs.file = csv_after fs ⟨now, n, e, m⟩) := by
  refine ⟨by simp [FeedbackService.save, hn, he, hm, hs], fun hc => ?_⟩
  have hfile := save_to_csv_file_of_ok io_ok fs ⟨now, n, e, m⟩ hc
  simp [FeedbackService.save, hn, he, hm, hs, hc, hfile]

theorem save_falls_back_to_csv_witness :
    (svc_unconf.save ops_none true fs_fresh "2024-01-01T00:00:00" "Alice"
        "alice@example.com" "Great tool!").csv_calls = [rec_ex] ∧
    ((save_to_csv true fs_fresh rec_ex).1 = true →
      (svc_unconf.save ops_none true fs_fresh "2024-01-01T00:00:00" "Alice"
          "alice@example.com" "Great tool!").ok = true ∧
      (svc_unconf.save ops_none true fs_fresh "2024-01-01T00:00:00" "Alice"
          "alice@example.com" "Great tool!").persisted = some "csv" ∧
      (svc_unconf.save ops_none true fs_fresh "2024-01-01T00:00:00" "Alice"
          "alice@example.com" "Great tool!").fs.file = csv_after fs_fresh rec_ex) :=
  save_falls_back_to_csv svc_unconf ops_none true fs_fresh "2024-01-01T00:00:00"
    "Alice" "alice@example.com" "Great tool!"
    (by decide) (by decide) (by decide) (by decide)

/-- C2: for every valid submission, the backends are attempted in the
fixed order Google Sheets then CSV, and a successful first backend
short-circuits the chain: `save` returns `True` showing the
Google-Sheets success message, and the CSV fallback is neither invoked
nor is the file modified. -/
theorem sheets_success_short_circuits (svc : FeedbackService) (ops : SheetsOps)
    (io_ok : Bool) (fs : Fs) (now n e m : String)
    (hn : n ≠ "") (he : e ≠ "") (hm : m ≠ "")
    (hs : (svc.save_to_google_sheets ops ⟨now, n, e, m⟩).1 = true) :
    (svc.save ops io_ok fs now n e m).ok = true ∧
    (svc.save ops io_ok fs now n e m).persisted = some "google_sheets" ∧
    (svc.save ops io_ok fs now n e m).csv_calls = [] ∧
    (svc.save ops io_ok fs now n e m).fs = fs := by
  simp [FeedbackService.save, hn, he, hm, hs]

theorem sheets_success_short_circuits_witness :
    (svc_conf.save ops_all true fs_fresh "2024-01-01T00:00:00" "Alice"
        "alice@example.com" "Great tool!").ok = true ∧
    (svc_conf.save ops_all true fs_fresh "2024-01-01T00:00:00" "Alice"
        "alice@example.com" "Great tool!").persisted = some "google_sheets" ∧
    (svc_conf.save ops_all true fs_fresh "2024-01-01T00:00:00" "Alice"
        "alice@example.com" "Great tool!").csv_calls = [] ∧
    (svc_conf.save ops_all true fs_fresh "2024-01-01T00:00:00" "Alice"
        "alice@example.com" "Great tool!").fs = fs_fresh :=
  sheets_success_short_circuits svc_conf ops_all true fs_fresh "2024-01-01T00:00:00"
    "Alice" "alice@example.com" "Great tool!"
    (by decide) (by decide) (by decide) (by decide)

/-- C3 counterexample: the claim says a whitespace-only field makes
`submit` return `ValidationFailed` with no backend invoked, but the
validation at line 198 (`if not name or not email or not message`) only
rejects empty strings: with `name = " "` the submission passes
validation, the CSV backend is invoked with the record, the file is
modified, and `save` returns `True`. -/
theorem whitespace_only_not_rejected :
    (svc_unconf.save ops_none true fs_fresh "2024-01-01T00:00:00" " "
        "bob@example.com" "Hi").ok = true ∧
    (svc_unconf.save ops_none true fs_fresh "2024-01-01T00:00:00" " "
        "bob@example.com" "Hi").csv_calls
      = [⟨"2024-01-01T00:00:00", " ", "bob@example.com", "Hi"⟩] ∧
    (svc_unconf.save ops_none true fs_fresh "2024-01-01T00:00:00" " "
        "bob@example.com" "Hi").fs ≠ fs_fresh := by
  decide

/-- C3 (amended): for every submission in which any of name, email, or
message is the empty string, `save` returns `False` and no backend is
invoked: no record is constructed, neither backend receives a call, and
the CSV file is unchanged. -/
theorem empty_field_rejected (svc : FeedbackService) (ops : SheetsOps) (io_ok : Bool)
    (fs : Fs) (now n e m : String) (h : n = "" ∨ e = "" ∨ m = "") :
    svc.save ops io_ok fs now n e m =
      { ok := false, persisted := none, fs := fs,
        sheets_calls := [], remote_rows := [], csv_calls := [] } := by
  simp [FeedbackService.save, h]

theorem empty_field_rejected_witness :
    svc_unconf.save ops_none true fs_fresh "2024-01-01T00:00:00" "" "bob@example.com" "Hi" =
      { ok := false, persisted := none, fs := fs_fresh,
        sheets_calls := [], remote_rows := [], csv_calls := [] } :=
  empty_field_rejected svc_unconf ops_none true fs_fresh "2024-01-01T00:00:00" ""
    "bob@example.com" "Hi" (Or.inl rfl)

/-- C4: every backend-level error is converted to a `False` return
inside the pipeline (`save_to_csv` and `save_to_google_sheets` are
total functions into `Bool`, mirroring the try/except blocks that
swallow every exception), and for every valid submission `save`
returns `False` exactly when the Google Sheets attempt failed and the
CSV backend's own write failed — and the CSV write fails exactly when
its `open`/`write` raises (missing directory or I/O error). -/
theorem failure_only_when_csv_fails (svc : FeedbackService) (ops : SheetsOps)
    (io_ok : Bool) (fs : Fs) (now n e m : String)
    (hn : n ≠ "") (he : e ≠ "") (hm : m ≠ "") :
    ((svc.save ops io_ok fs now n e m).ok = false ↔
      ((svc.save_to_google_sheets ops ⟨now, n, e, m⟩).1 = false ∧
        (save_to_csv io_ok fs ⟨now, n, e, m⟩).1 = false)) ∧
    ((save_to_csv io_ok fs ⟨now, n, e, m⟩).1 = false ↔
      (fs.dir_exists && io_ok) = false) := by
  refine ⟨?_, save_to_csv_fail_iff io_ok fs ⟨now, n, e, m⟩⟩
  cases hs : (svc.save_to_google_sheets ops ⟨now, n, e, m⟩).1 <;>
    simp [FeedbackService.save, hn, he, hm, hs]

theorem failure_only_when_csv_fails_witness :
    ((svc_unconf.save ops_none false (⟨false, none⟩ : Fs) "2024-01-01T00:00:00" "Alice"
        "alice@example.com" "Great tool!").ok = false ↔
      ((svc_unconf.save_to_google_sheets ops_none rec_ex).1 = false ∧
        (save_to_csv false (⟨false, none⟩ : Fs) rec_ex).1 = false)) ∧
    ((save_to_csv false (⟨false, none⟩ : Fs) rec_ex).1 = false ↔
      ((⟨false, none⟩ : Fs).dir_exists && false) = false) :=
  failure_only_when_csv_fails svc_unconf ops_none false ⟨false, none⟩
    "2024-01-01T00:00:00" "Alice" "alice@example.com" "Great tool!"
    (by decide) (by decide) (by decide)

/-- C5 counterexample: the claim's "for every N" fails at N = 0.
Writing zero records starting from a fresh (absent) file performs no
write at all, and the header is only written inside `_save_to_csv`
itself, upon the first record's write (lines 389-393): after zero
writes the file still does not exist — it has no lines, not the claimed
N + 1 = 1 line consisting of the header. -/
theorem csv_zero_records_no_file :
    (write_records [] fs_fresh).file = none ∧
    (write_records [] fs_fresh).file ≠ some [csv_header] := by
  decide

/-- C5 (amended): the CSV backend writes the header row exactly once,
when the file does not yet exist: writing N ≥ 1 records starting from a
fresh (absent) file yields a file of N + 1 rows whose first row encodes
to exactly the line `Timestamp,Name,Email,Message`; every successful
write to an existing file appends exactly the record's row (never a
second header), and a write to an absent file always succeeds when the
directory is present.  Writing zero records never creates the file, so
the header exists only once a first record is written. -/
theorem csv_header_written_once (d d2 : FeedbackRecord) (records : List FeedbackRecord)
    (rs : List (List String)) (dirE : Bool) (file : Option (List (List String))) :
    (write_records (d :: records) fs_fresh).file
      = some (csv_header :: (d :: records).map record_row) ∧
    (csv_header :: (d :: records).map record_row).length = (d :: records).length + 1 ∧
    encode_row_string csv_header = "Timestamp,Name,Email,Message" ∧
    (save_to_csv true ⟨true, file⟩ d2).1 = true ∧
    ((save_to_csv true ⟨dirE, some rs⟩ d2).2).file
      = (if dirE then some (rs ++ [record_row d2]) else some rs) := by
  refine ⟨?_, by simp, by decide, ?_, ?_⟩
  · have hstep : (save_to_csv true fs_fresh d).2 =
        (⟨true, some [csv_header, record_row d]⟩ : Fs) := by
      simp [save_to_csv, fs_fresh]
    have : write_records (d :: records) fs_fresh =
        write_records records (save_to_csv true fs_fresh d).2 := by
      simp [write_records, List.foldl_cons]
    rw [this, hstep, write_records_some records [csv_header, record_row d]]
    simp
  · cases file <;> simp [save_to_csv]
  · cases dirE <;> simp [save_to_csv]

/-! ## CSV round trip -/

theorem parse_run_cons_some {s s2 : PState} {c : Char} (cs : List Char)
    (h : parse_step s c = some s2) : parse_run s (c :: cs) = parse_run s2 cs := by
  simp [parse_run, h]

theorem step_start_comma (acc : List (List Char)) :
    parse_step (PState.start acc) ',' = some (.start (acc ++ [[]])) := by
  simp [parse_step]

theorem step_start_quote (acc : List (List Char)) :
    parse_step (PState.start acc) '\"' = some (.quo [] acc) := by
  simp [parse_step]

theorem step_start_other (acc : List (List Char)) (c : Char)
    (h1 : ¬ c = ',') (h2 : ¬ c = '\"') :
    parse_step (PState.start acc) c = some (.unq [c] acc) := by
  simp [parse_step, h1, h2]

theorem step_unq_comma (cur : List Char) (acc : List (List Char)) :
    parse_step (PState.unq cur acc) ',' = some (.start (acc ++ [cur])) := by
  simp [parse_step]

theorem step_unq_other (cur : List Char) (acc : List (List Char)) (c : Char)
    (h : ¬ c = ',') :
    parse_step (PState.unq cur acc) c = some (.unq (cur ++ [c]) acc) := by
  simp [parse_step, h]

theorem step_quo_quote (cur : List Char) (acc : List (List Char)) :
    parse_step (PState.quo cur acc) '\"' = some (.quoq cur acc) := by
  simp [parse_step]

theorem step_quo_other (cur : List Char) (acc : List (List Char)) (c : Char)
    (h : ¬ c = '\"') :
    parse_step (PState.quo cur acc) c = some (.quo (cur ++ [c]) acc) := by
  simp [parse_step, h]

theorem step_quoq_quote (cur : List Char) (acc : List (List Char)) :
    parse_step (PState.quoq cur acc) '\"' = some (.quo (cur ++ ['\"']) acc) := by
  simp [parse_step]

theorem step_quoq_comma (cur : List Char) (acc : List (List Char)) :
    parse_step (PState.quoq cur acc) ',' = some (.start (acc ++ [cur])) := by
  simp [parse_step]

theorem parse_run_quo (f : List Char) :
    ∀ (cur : List Char) (acc : List (List Char)) (rest : List Char),
      parse_run (PState.quo cur acc) (escape f ++ '\"' :: rest)
        = parse_run (PState.quoq (cur ++ f) acc) rest := by
  induction f with
  | nil =>
    intro cur acc rest
    have e1 : escape [] ++ '\"' :: rest = '\"' :: rest := by simp [escape]
    rw [e1, parse_run_cons_some _ (step_quo_quote cur acc)]
    simp
  | cons c f ih =>
    intro cur acc rest
    by_cases hc : c = '\"'
    · subst hc
      have e1 : escape ('\"' :: f) ++ '\"' :: rest
          = '\"' :: '\"' :: (escape f ++ '\"' :: rest) := by simp [escape]
      rw [e1, parse_run_cons_some _ (step_quo_quote cur acc),
        parse_run_cons_some _ (step_quoq_quote cur acc),
        ih (cur ++ ['\"']) acc rest]
      simp
    · have e1 : escape (c :: f) ++ '\"' :: rest
          = c :: (escape f ++ '\"' :: rest) := by simp [escape, hc]
      rw [e1, parse_run_cons_some _ (step_quo_other cur acc c hc),
        ih (cur ++ [c]) acc rest]
      simp

theorem parse_run_unq (f : List Char) :
    ∀ (cur : List Char) (acc : List (List Char)) (rest : List Char),
      (∀ c ∈ f, ¬ c = ',') →
      parse_run (PState.unq cur acc) (f ++ rest)
        = parse_run (PState.unq (cur ++ f) acc) rest := by
  induction f with
  | nil => intro cur acc rest _; simp
  | cons c f ih =>
    intro cur acc rest h
    have hc : ¬ c = ',' := h c (by simp)
    have hf : ∀ x ∈ f, ¬ x = ',' := fun x hx => h x (by simp [hx])
    have e1 : (c :: f) ++ rest = c :: (f ++ rest) := by simp
    rw [e1, parse_run_cons_some _ (step_unq_other cur acc c hc),
      ih (cur ++ [c]) acc rest hf]
    simp

theorem not_needs_quote (f : List Char) (h : needs_quote f = false) :
    (∀ c ∈ f, ¬ c = ',') ∧ (∀ c ∈ f, ¬ c = '\"') := by
  simp only [needs_quote, List.any_eq_false, Bool.or_eq_true, beq_iff_eq,
    not_or] at h
  refine ⟨fun c hc => ?_, fun c hc => ?_⟩ <;> have hh := h c hc <;> tauto

theorem parse_run_row (fs : List (List Char)) :
    ∀ (f : List Char) (acc : List (List Char)),
      parse_run (PState.start acc) (encode_row (f :: fs)) = some (acc ++ [f] ++ fs) := by
  induction fs with
  | nil =>
    intro f acc
    by_cases hq : needs_quote f
    · have e1 : encode_row [f] = '\"' :: (escape f ++ '\"' :: []) := by
        simp [encode_row, encode_field, hq]
      rw [e1, parse_run_cons_some _ (step_start_quote acc)]
      have h := parse_run_quo f [] acc []
      simp only [List.nil_append] at h
      rw [h]
      simp [parse_run, parse_finish]
    · have h := not_needs_quote f (by simpa using hq)
      cases f with
      | nil =>
        simp [encode_row, encode_field, needs_quote, parse_run, parse_finish]
      | cons c f2 =>
        have hc1 : ¬ c = ',' := h.1 c (by simp)
        have hc2 : ¬ c = '\"' := h.2 c (by simp)
        have hf2 : ∀ x ∈ f2, ¬ x = ',' := fun x hx => h.1 x (by simp [hx])
        have e1 : encode_row [c :: f2] = c :: (f2 ++ []) := by
          simp [encode_row, encode_field, hq]
        rw [e1, parse_run_cons_some _ (step_start_other acc c hc1 hc2),
          parse_run_unq f2 [c] acc [] hf2]
        simp [parse_run, parse_finish]
  | cons g fs ih =>
    intro f acc
    by_cases hq : needs_quote f
    · have e1 : encode_row (f :: g :: fs)
          = '\"' :: (escape f ++ '\"' :: ',' :: encode_row (g :: fs)) := by
        simp [encode_row, encode_field, hq]
      rw [e1, parse_run_cons_some _ (step_start_quote acc)]
      have h := parse_run_quo f [] acc (',' :: encode_row (g :: fs))
      simp only [List.nil_append] at h
      rw [h, parse_run_cons_some _ (step_quoq_comma f acc), ih g (acc ++ [f])]
      simp
    · have h := not_needs_quote f (by simpa using hq)
      cases f with
      | nil =>
        have e1 : encode_row ([] :: g :: fs) = ',' :: encode_row (g :: fs) := by
          simp [encode_row, encode_field, needs_quote]
        rw [e1, parse_run_cons_some _ (step_start_comma acc), ih g (acc ++ [[]])]
        simp
      | cons c f2 =>
        have hc1 : ¬ c = ',' := h.1 c (by simp)
        have hc2 : ¬ c = '\"' := h.2 c (by simp)
        have hf2 : ∀ x ∈ f2, ¬ x = ',' := fun x hx => h.1 x (by simp [hx])
        have e1 : encode_row ((c :: f2) :: g :: fs)
            = c :: (f2 ++ ',' :: encode_row (g :: fs)) := by
          simp [encode_row, encode_field, hq]
        have h2 := parse_run_unq f2 [c] acc (',' :: encode_row (g :: fs)) hf2
        simp only [List.singleton_append] at h2
        rw [e1, parse_run_cons_some _ (step_start_other acc c hc1 hc2), h2,
          parse_run_cons_some _ (step_unq_comma (c :: f2) acc),
          ih g (acc ++ [c :: f2])]
        simp

/-- C6 counterexample: the claim says the parsed row's fields equal the
assigned timestamp and the TRIMMED name/email/message, but `save`
(lines 202-208) stores the fields exactly as submitted, without
trimming: for the submission with name `" Alice "` the appended CSV row
parses back to `" Alice "`, which differs from its trimmed form. -/
theorem csv_row_not_trimmed :
    parse_fields (encode_row ((record_row rec_untrimmed).map String.data))
      = some ["2024-01-01T00:00:00".data, " Alice ".data,
          "alice@example.com".data, "Great tool!".data] ∧
    " Alice ".data ≠ py_strip " Alice ".data := by
  constructor
  · have h := parse_run_row ([" Alice ".data, "alice@example.com".data,
        "Great tool!".data]) "2024-01-01T00:00:00".data []
    simpa [parse_fields, record_row, rec_untrimmed] using h
  · decide

/-- C6 (amended): for every record appended by the CSV backend, parsing
the appended CSV row back yields exactly four fields equal to the
assigned timestamp and the name, email, and message exactly as
submitted (untrimmed) — format-preserving, including fields containing
commas, quotes, or newlines, thanks to the quoting of
`csv.writer`. -/
theorem csv_round_trip_exact (d : FeedbackRecord) :
    parse_fields (encode_row ((record_row d).map String.data))
      = some ((record_row d).map String.data) := by
  have h := parse_run_row [d.name.data, d.email.data, d.message.data]
    d.timestamp.data []
  simpa [parse_fields, record_row] using h

/-! ## Claims about `GitHubFeedbackService` -/

/-- C7 counterexample: the claim says `save_feedback` reports success
if and only if the POST returns status 201, but on a 201 response whose
body `response.json()` (line 78) fails to parse, the raised exception
lands in the `except Exception` handler (line 89) and `save_feedback`
returns `False` although the POST returned 201. -/
theorem github_201_unparsed_body :
    gh_ex.is_configured = true ∧
    (gh_ex.save_feedback "Alice" "alice@example.com" "Hi"
        (.response ⟨201, false⟩)).2 = true ∧
    (gh_ex.save_feedback "Alice" "alice@example.com" "Hi"
        (.response ⟨201, false⟩)).1 = false := by
  decide

/-- C7 (amended): `save_feedback` reports success if and only if the
service is configured, the HTTP POST to the create-issue endpoint
returns status 201 and reading the response body succeeds; any other
status code, network error, or other exception makes it report backend
failure (`False`) without raising (the embedding is a total function,
mirroring the two except handlers at lines 86-91). -/
theorem github_save_success_iff (g : GitHubFeedbackService) (n e m : String)
    (out : PostOutcome) :
    (g.save_feedback n e m out).1 = true ↔
      (g.is_configured = true ∧
        ∃ r : HttpResponse, out = .response r ∧ r.status_code = 201 ∧
          r.json_ok = true) := by
  cases hg : g.is_configured <;> cases out <;>
    simp [GitHubFeedbackService.save_feedback, hg]
  case true.response r =>
    rcases r with ⟨sc, jo⟩
    by_cases h201 : sc = 201 <;> cases jo <;> simp [h201]

/-- C8 counterexample: the claim says the backend is configured only if
token and repository identity are non-placeholder, but `is_configured`
(line 21) checks emptiness only: a service whose token is the
repository's own placeholder literal `"your-actual-project-id"`
(feedback_service.py line 76) is still reported configured. -/
theorem github_placeholder_token_configured :
    placeholder_value gh_placeholder.github_token = true ∧
    gh_placeholder.is_configured = true := by
  decide

/-- C8 (amended): the issue-tracker backend is considered configured
iff the access token, repository owner and repository name are all
non-empty (no placeholder detection is performed); and whenever
`is_configured` is false, `save_feedback` returns failure without
attempting the POST. -/
theorem github_is_configured_iff (g : GitHubFeedbackService) (n e m : String)
    (out : PostOutcome) :
    (g.is_configured = true ↔
      (g.github_token ≠ "" ∧ g.repo_owner ≠ "" ∧ g.repo_name ≠ "")) ∧
    (g.is_configured = false → g.save_feedback n e m out = (false, false)) := by
  constructor
  · simp [GitHubFeedbackService.is_configured, and_assoc]
  · intro hg
    simp [GitHubFeedbackService.save_feedback, hg]

theorem github_is_configured_iff_witness :
    (gh_unconf.is_configured = true ↔
      (gh_unconf.github_token ≠ "" ∧ gh_unconf.repo_owner ≠ "" ∧
        gh_unconf.repo_name ≠ "")) ∧
    gh_unconf.save_feedback "Alice" "alice@example.com" "Hi"
        PostOutcome.network_error = (false, false) :=
  ⟨(github_is_configured_iff gh_unconf "Alice" "alice@example.com" "Hi"
      PostOutcome.network_error).1,
    (github_is_configured_iff gh_unconf "Alice" "alice@example.com" "Hi"
      PostOutcome.network_error).2 (by decide)⟩

/-- C9: within a single valid submission the record is constructed
exactly once (lines 202-208), before any backend attempt, and never
mutated between attempts: the Google Sheets backend is passed exactly
the record once, the CSV backend — when reached — is passed the
identical record, every row that reaches the remote worksheet carries
the record's four fields (plus the fixed "Yeni" status), and the
timestamp assigned at submission time is the one persisted by whichever
backend succeeded. -/
theorem record_constructed_once (svc : FeedbackService) (ops : SheetsOps) (io_ok : Bool)
    (fs : Fs) (now n e m : String) (hn : n ≠ "") (he : e ≠ "") (hm : m ≠ "") :
    (svc.save ops io_ok fs now n e m).sheets_calls = [⟨now, n, e, m⟩] ∧
    ((svc.save ops io_ok fs now n e m).csv_calls = [] ∨
      (svc.save ops io_ok fs now n e m).csv_calls = [⟨now, n, e, m⟩]) ∧
    (∀ row ∈ (svc.save ops io_ok fs now n e m).remote_rows,
      row = sheets_header ∨ row = sheet_row ⟨now, n, e, m⟩) ∧
    ((svc.save ops io_ok fs now n e m).persisted = some "google_sheets" →
      sheet_row ⟨now, n, e, m⟩ ∈ (svc.save ops io_ok fs now n e m).remote_rows ∧
      (svc.save ops io_ok fs now n e m).fs = fs) ∧
    ((svc.save ops io_ok fs now n e m).persisted = some "csv" →
      (svc.save ops io_ok fs now n e m).fs.file = csv_after fs ⟨now, n, e, m⟩) := by
  have hmem := sheets_rows_mem svc ops ⟨now, n, e, m⟩
  cases hs : (svc.save_to_google_sheets ops ⟨now, n, e, m⟩).1
  · cases hc : (save_to_csv io_ok fs ⟨now, n, e, m⟩).1
    · simp [FeedbackService.save, hn, he, hm, hs, hc]
      exact hmem
    · have hfile := save_to_csv_file_of_ok io_ok fs ⟨now, n, e, m⟩ hc
      simp [FeedbackService.save, hn, he, hm, hs, hc, hfile]
      exact hmem
  · have hrow := sheets_success_row svc ops ⟨now, n, e, m⟩ hs
    simp [FeedbackService.save, hn, he, hm, hs, hrow]
    exact hmem

theorem record_constructed_once_witness :
    (svc_unconf.save ops_none true fs_fresh "2024-01-01T00:00:00" "Alice"
        "alice@example.com" "Great tool!").sheets_calls = [rec_ex] ∧
    ((svc_unconf.save ops_none true fs_fresh "2024-01-01T00:00:00" "Alice"
        "alice@example.com" "Great tool!").csv_calls = [] ∨
      (svc_unconf.save ops_none true fs_fresh "2024-01-01T00:00:00" "Alice"
          "alice@example.com" "Great tool!").csv_calls = [rec_ex]) ∧
    (∀ row ∈ (svc_unconf.save ops_none true fs_fresh "2024-01-01T00:00:00" "Alice"
        "alice@example.com" "Great tool!").remote_rows,
      row = sheets_header ∨ row = sheet_row rec_ex) ∧
    ((svc_unconf.save ops_none true fs_fresh "2024-01-01T00:00:00" "Alice"
        "alice@example.com" "Great tool!").persisted = some "google_sheets" →
      sheet_row rec_ex ∈ (svc_unconf.save ops_none true fs_fresh "2024-01-01T00:00:00"
        "Alice" "alice@example.com" "Great tool!").remote_rows ∧
      (svc_unconf.save ops_none true fs_fresh "2024-01-01T00:00:00" "Alice"
          "alice@example.com" "Great tool!").fs = fs_fresh) ∧
    ((svc_unconf.save ops_none true fs_fresh "2024-01-01T00:00:00" "Alice"
        "alice@example.com" "Great tool!").persisted = some "csv" →
      (svc_unconf.save ops_none true fs_fresh "2024-01-01T00:00:00" "Alice"
          "alice@example.com" "Great tool!").fs.file = csv_after fs_fresh rec_ex) :=
  record_constructed_once svc_unconf ops_none true fs_fresh "2024-01-01T00:00:00"
    "Alice" "alice@example.com" "Great tool!" (by decide) (by decide) (by decide)

/-- C10: constructing the service always creates the data directory
idempotently (`os.makedirs(..., exist_ok=True)`, line 37), tolerating
its prior existence and touching nothing else; and `_save_to_csv` is a
total boolean function that never raises and never creates directories:
it leaves the directory state unchanged, and returns `False` with the
file untouched whenever the directory is missing or the open/write
raises. -/
theorem init_dir_and_csv_total (fs : Fs) (io_ok : Bool) (d : FeedbackRecord)
    (file : Option (List (List String))) :
    service_init (service_init fs) = service_init fs ∧
    (service_init fs).dir_exists = true ∧
    (service_init fs).file = fs.file ∧
    ((save_to_csv io_ok fs d).2).dir_exists = fs.dir_exists ∧
    save_to_csv io_ok ⟨false, file⟩ d = (false, ⟨false, file⟩) ∧
    save_to_csv false fs d = (false, fs) := by
  refine ⟨rfl, rfl, rfl, ?_, ?_, ?_⟩
  · unfold save_to_csv
    split
    · split <;> rfl
    · rfl
  · simp [save_to_csv]
  · simp [save_to_csv]

end FNA
